import Mathlib

/-!
Shallow embedding of `libqtile/lazy.py`: the deferred-invocation and
conditional-activation engine (`LazyCall`, its fluent `when` rule-attachment
API, the `check` activation-decision algorithm, and the `LazyCommandObject`
adapter).

Modelling conventions:
* The window-manager state object `q` is modelled by the structure `Qtile`
  exposing exactly the accessors the code reads: `current_layout.name` and
  `current_window` (an `Option Window` with a `floating` flag); Python
  truthiness of `q.current_window` is `Option.isSome`.
* User-supplied predicates may raise, so a filter is a function
  `Qtile → Except ε Bool`; `Except.error e` models a raised exception `e`.
* `self._layout_rules` is a string-keyed dict whose values are the rule
  records written by `when` (both keys `when_floating` and `filter` are
  always assigned together, so a value is a complete `Rule` record).
  The dict is modelled as an insertion-ordered association list; Python
  `d[k] = v` is `dictSet`, `k in d` is `(List.lookup k d).isSome`.
* `self._filter` initially holds the bound method `self._default_filter`,
  which reads the CURRENT `self._layout_rules` each time it runs; `when`
  with no `filt` restores it.  The field is therefore modelled as
  `Option (FilterFn ε)` where `none` means "the default filter", resolved
  against the current rules at call time by `applyFilter`.
* `check` is translated twice: `LazyCall.check`, the direct functional
  translation, and `LazyCall.checkDD`, the same method with the
  `defaultdict` state of `_layout_rules` made explicit (every `d[k]`
  subscript goes through `ddGetItem`, which inserts a default entry when
  the key is missing, exactly as `collections.defaultdict` does).  The
  theorem for C10 proves the two agree and that `checkDD` never mutates.
* `call`, `args` and `kwargs` are opaque payloads (type parameters
  `κ τ δ`): the engine never inspects them.
-/

/-- The current layout object; the code only reads its `name`. -/
structure Layout where
  name : String

/-- The current window object; the code only reads its `floating` flag. -/
structure Window where
  floating : Bool

/-- The live window-manager object `q`, restricted to the accessors
`LazyCall.check` and `LazyCall._default_filter` read. -/
structure Qtile where
  current_layout : Layout
  current_window : Option Window

/-- The Python condition `q.current_window and q.current_window.floating`:
a current window exists and is floating. -/
def Qtile.floating_window (q : Qtile) : Bool :=
  match q.current_window with
  | some w => w.floating
  | none => false

/-- A user-supplied filter predicate: receives the full state object and
either returns a boolean or raises an exception of type `ε`. -/
abbrev FilterFn (ε : Type) := Qtile → Except ε Bool

/-- One per-layout rule record `self._layout_rules[layout]`, i.e. the dict
`{"when_floating": ..., "filter": ...}` written by `LazyCall.when`. -/
structure Rule (ε : Type) where
  when_floating : Bool
  filter : FilterFn ε

/-- Python dict assignment `d[k] = v` on an insertion-ordered association
list: overwrite in place when the key exists, append otherwise. -/
def dictSet {β : Type} (d : List (String × β)) (k : String) (v : β) :
    List (String × β) :=
  match d with
  | [] => [(k, v)]
  | (k2, v2) :: rest =>
    if k2 == k then (k, v) :: rest else (k2, v2) :: dictSet rest k v

/-- Python `collections.defaultdict.__getitem__`: return the stored entry
and the unchanged dict when the key is present, otherwise insert (append)
the default entry and return it. -/
def ddGetItem {β : Type} (d : List (String × β)) (k : String) (dflt : β) :
    β × List (String × β) :=
  match List.lookup k d with
  | some v => (v, d)
  | none => (dflt, d ++ [(k, dflt)])

/-- The state of a `LazyCall` object: the stored invocation (`self._call`,
`self._args`, `self._kwargs`, opaque payloads here) and the activation-rule
state (`self._layout_rules`, `self._when_floating`, `self._filter`).
`filter = none` represents `self._filter` holding the bound method
`self._default_filter`. -/
structure LazyCall (κ τ δ ε : Type) where
  call : κ
  args : τ
  kwargs : δ
  layout_rules : List (String × Rule ε)
  when_floating : Bool
  filter : Option (FilterFn ε)

/-- `LazyCall.__init__`: store the invocation; start with an empty rule
table, `_when_floating = True` and `_filter = self._default_filter`. -/
def LazyCall.init {κ τ δ ε : Type} (call : κ) (args : τ) (kwargs : δ) :
    LazyCall κ τ δ ε :=
  { call := call, args := args, kwargs := kwargs,
    layout_rules := [], when_floating := true, filter := none }

/-- `LazyCall._default_filter`:
`not (self._layout_rules and q.current_layout.name not in self._layout_rules)`.
Rejects only when the rule table is non-empty and the current layout name is
not one of its keys. -/
def LazyCall.default_filter {κ τ δ ε : Type} (lc : LazyCall κ τ δ ε)
    (q : Qtile) : Bool :=
  !(!lc.layout_rules.isEmpty &&
    (List.lookup q.current_layout.name lc.layout_rules).isNone)

/-- The call `self._filter(q)`: run the explicitly stored filter when one
was set, otherwise the bound `self._default_filter` (which reads the
current rule table and never raises). -/
def LazyCall.applyFilter {κ τ δ ε : Type} (lc : LazyCall κ τ δ ε)
    (q : Qtile) : Except ε Bool :=
  match lc.filter with
  | some f => f q
  | none => Except.ok (lc.default_filter q)

/-- `LazyCall.when(layout=None, when_floating=True, filt=None)`: with a
layout, upsert `self._layout_rules[layout]["when_floating"] = when_floating`
and `self._layout_rules[layout]["filter"] = filt or (lambda q: True)`;
without one, overwrite `self._when_floating` and
`self._filter = filt or self._default_filter`, and return the call. -/
def LazyCall.when {κ τ δ ε : Type} (lc : LazyCall κ τ δ ε)
    (layout : Option String) (when_floating : Bool)
    (filt : Option (FilterFn ε)) : LazyCall κ τ δ ε :=
  match layout with
  | some l =>
    let r : Rule ε := ⟨when_floating, filt.getD (fun _ => Except.ok true)⟩
    { lc with layout_rules := dictSet lc.layout_rules l r }
  | none => { lc with when_floating := when_floating, filter := filt }

/-- `LazyCall.check(q)`: the activation-decision algorithm.  Floating
current window: the matching per-layout rule's
`when_floating and filter(q)`, else the global
`self._when_floating and self._filter(q)` (Python `and` short-circuits, so
a false flag returns `False` without calling the filter).  Otherwise: the
matching per-layout rule's `filter(q)`, else `self._filter(q)`. -/
def LazyCall.check {κ τ δ ε : Type} (lc : LazyCall κ τ δ ε) (q : Qtile) :
    Except ε Bool :=
  if q.floating_window then
    match List.lookup q.current_layout.name lc.layout_rules with
    | some r => if r.when_floating then r.filter q else Except.ok false
    | none =>
      if lc.when_floating then lc.applyFilter q else Except.ok false
  else
    match List.lookup q.current_layout.name lc.layout_rules with
    | some r => r.filter q
    | none => lc.applyFilter q

/-- `LazyCall.check(q)` re-translated with the `defaultdict` state of
`self._layout_rules` explicit: every subscript `self._layout_rules[...]`
goes through `ddGetItem` (which inserts `dflt` when the key is missing,
as `defaultdict` would), the table is threaded through, and the method
returns the result together with the post-state of the object.  Membership
tests `in` do not subscript and so never insert. -/
def LazyCall.checkDD {κ τ δ ε : Type} (dflt : Rule ε)
    (lc : LazyCall κ τ δ ε) (q : Qtile) :
    Except ε Bool × LazyCall κ τ δ ε :=
  if q.floating_window then
    if (List.lookup q.current_layout.name lc.layout_rules).isSome then
      let p1 := ddGetItem lc.layout_rules q.current_layout.name dflt
      if p1.1.when_floating then
        let p2 := ddGetItem p1.2 q.current_layout.name dflt
        (p2.1.filter q, { lc with layout_rules := p2.2 })
      else
        (Except.ok false, { lc with layout_rules := p1.2 })
    else
      if lc.when_floating then (lc.applyFilter q, lc)
      else (Except.ok false, lc)
  else
    if (List.lookup q.current_layout.name lc.layout_rules).isSome then
      let p := ddGetItem lc.layout_rules q.current_layout.name dflt
      (p.1.filter q, { lc with layout_rules := p.2 })
    else
      (lc.applyFilter q, lc)

/-- `LazyCommandObject.execute`: wrap the call in a fresh `LazyCall`. -/
def LazyCommandObject.execute {κ τ δ ε : Type} (call : κ) (args : τ)
    (kwargs : δ) : LazyCall κ τ δ ε :=
  LazyCall.init call args kwargs

/-- `LazyCommandObject.has_command`: always `True` (resolution deferred). -/
def LazyCommandObject.has_command {ν : Type} (node : ν) (command : String) :
    Bool :=
  true

/-- `LazyCommandObject.has_item`: always `True` (resolution deferred). -/
def LazyCommandObject.has_item {ν ι : Type} (node : ν)
    (object_type : String) (item : ι) : Bool :=
  true

/-! Helper lemmas about `dictSet` (Python dict assignment). -/

/-- Looking up the key just assigned returns the assigned value. -/
theorem dictSet_lookup_self {β : Type} (d : List (String × β)) (k : String)
    (v : β) : List.lookup k (dictSet d k v) = some v := by
  induction d with
  | nil => simp [dictSet, List.lookup]
  | cons p rest ih =>
    obtain ⟨k2, v2⟩ := p
    by_cases h : k2 = k
    · subst h
      simp [dictSet, List.lookup]
    · have hbeq : (k == k2) = false := beq_eq_false_iff_ne.mpr (Ne.symm h)
      have hbeq2 : (k2 == k) = false := beq_eq_false_iff_ne.mpr h
      simp [dictSet, List.lookup, hbeq, hbeq2, ih]

/-- Assignment to one key leaves lookups of every other key unchanged. -/
theorem dictSet_lookup_ne {β : Type} (d : List (String × β)) (k k2 : String)
    (v : β) (h : k2 ≠ k) :
    List.lookup k2 (dictSet d k v) = List.lookup k2 d := by
  have hbeq : (k2 == k) = false := beq_eq_false_iff_ne.mpr h
  induction d with
  | nil => simp [dictSet, List.lookup, hbeq]
  | cons p rest ih =>
    obtain ⟨k3, v3⟩ := p
    by_cases h3 : k3 = k
    · subst h3
      simp [dictSet, List.lookup, hbeq]
    · have hbeq3 : (k3 == k) = false := beq_eq_false_iff_ne.mpr h3
      simp [dictSet, List.lookup, hbeq3, ih]

/-- Two assignments to the same key collapse to the second one. -/
theorem dictSet_dictSet {β : Type} (d : List (String × β)) (k : String)
    (v1 v2 : β) : dictSet (dictSet d k v1) k v2 = dictSet d k v2 := by
  induction d with
  | nil => simp [dictSet]
  | cons p rest ih =>
    obtain ⟨k2, v2x⟩ := p
    by_cases h : k2 = k
    · subst h
      simp [dictSet]
    · simp [dictSet, h, ih]

/-- An assignment never leaves the dict empty. -/
theorem dictSet_ne_nil {β : Type} (d : List (String × β)) (k : String)
    (v : β) : dictSet d k v ≠ [] := by
  cases d with
  | nil => simp [dictSet]
  | cons p rest =>
    obtain ⟨k2, v2⟩ := p
    by_cases h : k2 = k
    · subst h
      simp [dictSet]
    · simp [dictSet, h]

/-- C5: a freshly constructed `LazyCall` — no `when` calls, so an empty rule
table and the default global rule — fires for every state: any layout name,
with or without a current window, floating or not. -/
theorem C5_fresh_call_always_fires {κ τ δ ε : Type} (call : κ) (args : τ)
    (kwargs : δ) (q : Qtile) :
    (@LazyCall.init κ τ δ ε call args kwargs).check q = Except.ok true := by
  simp [LazyCall.init, LazyCall.check, LazyCall.applyFilter,
    LazyCall.default_filter, List.lookup]

/-- C1: on a `LazyCall` with no explicitly set global filter, when the
current window is absent or not floating and the current layout has no
per-layout rule, `check` returns `false` iff the rule table is non-empty
and the current layout name is not a key of it, and returns `true` in every
other such case (including an empty rule table); an explicitly set global
filter replaces this verdict with its own. -/
theorem C1_default_global_filter {κ τ δ ε : Type} (lc : LazyCall κ τ δ ε)
    (q : Qtile) (hw : q.floating_window = false)
    (hr : List.lookup q.current_layout.name lc.layout_rules = none) :
    (lc.filter = none →
      (lc.check q = Except.ok false ↔
        lc.layout_rules ≠ [] ∧
          List.lookup q.current_layout.name lc.layout_rules = none) ∧
      (lc.check q = Except.ok true ↔
        ¬(lc.layout_rules ≠ [] ∧
          List.lookup q.current_layout.name lc.layout_rules = none))) ∧
    (∀ f, lc.filter = some f → lc.check q = f q) := by
  obtain ⟨c, a, kw, rules, wfl, fl⟩ := lc
  constructor
  · intro hf
    simp only at hf
    subst hf
    have hc : LazyCall.check ⟨c, a, kw, rules, wfl, none⟩ q =
        Except.ok (LazyCall.default_filter ⟨c, a, kw, rules, wfl, none⟩ q) := by
      simp [LazyCall.check, hw, hr, LazyCall.applyFilter]
    rw [hc]
    unfold LazyCall.default_filter
    simp only [hr] at *
    cases rules with
    | nil => simp
    | cons p rest => simp [hr]
  · intro f hf
    simp only at hf
    subst hf
    simp [LazyCall.check, hw, hr, LazyCall.applyFilter]

/-- C2: with a rule `{when_floating := wf, filter := f}` attached for layout
L, a state in layout L whose current window is floating decides
`wf && f(state)`; when `wf = false` the result is `false` for every `f`
(including a filter that always raises), i.e. the flag short-circuits before
the filter is invoked. -/
theorem C2_floating_rule_short_circuit {κ τ δ ε : Type}
    (lc : LazyCall κ τ δ ε) (q : Qtile) (L : String) (wf : Bool)
    (f : FilterFn ε) (hL : q.current_layout.name = L)
    (hw : q.floating_window = true)
    (hr : List.lookup L lc.layout_rules = some ⟨wf, f⟩) :
    lc.check q = (if wf then f q else Except.ok false) ∧
    (wf = false → lc.check q = Except.ok false) := by
  have h1 : lc.check q = if wf then f q else Except.ok false := by
    simp [LazyCall.check, hw, hL, hr]
  refine ⟨h1, ?_⟩
  intro hwf
  rw [h1, hwf]
  simp

/-- C3: with a rule `{when_floating := wf, filter := f}` attached for layout
L, a state in layout L whose current window is absent or not floating
decides `f(state)`, independent of the value of `wf`. -/
theorem C3_nonfloating_rule {κ τ δ ε : Type} (lc : LazyCall κ τ δ ε)
    (q : Qtile) (L : String) (wf : Bool) (f : FilterFn ε)
    (hL : q.current_layout.name = L) (hw : q.floating_window = false)
    (hr : List.lookup L lc.layout_rules = some ⟨wf, f⟩) :
    lc.check q = f q := by
  simp [LazyCall.check, hw, hL, hr]

/-- C4: when the current window is floating and the current layout has no
per-layout rule, `check` decides the global `when_floating && filter`; in
particular after `when` with no layout and `when_floating = false`, the
result is `false` for every such state. -/
theorem C4_floating_global {κ τ δ ε : Type} (lc : LazyCall κ τ δ ε)
    (q : Qtile) (hw : q.floating_window = true)
    (hr : List.lookup q.current_layout.name lc.layout_rules = none) :
    (lc.check q =
      if lc.when_floating then lc.applyFilter q else Except.ok false) ∧
    (∀ g, (lc.when none false g).check q = Except.ok false) := by
  constructor
  · simp [LazyCall.check, hw, hr]
  · intro g
    obtain ⟨c, a, kw, rules, wfl, fl⟩ := lc
    simp only [List.lookup] at hr
    simp [LazyCall.when, LazyCall.check, hw, hr]

/-- C6: `when` is last-write-wins and idempotent-by-overwrite, both for a
named layout and for the global rule (layout omitted): repeating a call
with identical arguments equals calling it once, and two calls for the same
layout equal a single call with the second call's arguments — as states and
hence as `check` behaviour. -/
theorem C6_last_write_wins {κ τ δ ε : Type} (lc : LazyCall κ τ δ ε)
    (L : String) (wf wf1 wf2 : Bool) (f f1 f2 : Option (FilterFn ε)) :
    ((lc.when (some L) wf f).when (some L) wf f = lc.when (some L) wf f) ∧
    ((lc.when (some L) wf1 f1).when (some L) wf2 f2 =
      lc.when (some L) wf2 f2) ∧
    ((lc.when none wf1 f1).when none wf2 f2 = lc.when none wf2 f2) ∧
    (∀ q, ((lc.when (some L) wf1 f1).when (some L) wf2 f2).check q =
      (lc.when (some L) wf2 f2).check q) ∧
    (∀ q, ((lc.when none wf1 f1).when none wf2 f2).check q =
      (lc.when none wf2 f2).check q) := by
  have h2 : ∀ (wa wb : Bool) (fa fb : Option (FilterFn ε)),
      (lc.when (some L) wa fa).when (some L) wb fb =
        lc.when (some L) wb fb := by
    intro wa wb fa fb
    simp [LazyCall.when, dictSet_dictSet]
  have h3 : (lc.when none wf1 f1).when none wf2 f2 =
      lc.when none wf2 f2 := by
    simp [LazyCall.when]
  exact ⟨h2 wf wf f f, h2 wf1 wf2 f1 f2, h3,
    fun q => by rw [h2 wf1 wf2 f1 f2],
    fun q => by rw [h3]⟩

/-- C7: frame property of `when`.  With a layout argument it changes only
the rule entry for that layout: the global flag, the global filter, the
stored call, args and kwargs, and every other layout's rule entry are
unchanged.  With layout omitted it changes only the global rule, leaving
the per-layout rule table and the stored invocation unchanged.  (In the
functional model, Python's `return self` is the updated record that `when`
returns.) -/
theorem C7_when_frame {κ τ δ ε : Type} (lc : LazyCall κ τ δ ε) (L : String)
    (wf : Bool) (f : Option (FilterFn ε)) (wfg : Bool)
    (fg : Option (FilterFn ε)) :
    ((lc.when (some L) wf f).when_floating = lc.when_floating ∧
      (lc.when (some L) wf f).filter = lc.filter ∧
      (lc.when (some L) wf f).call = lc.call ∧
      (lc.when (some L) wf f).args = lc.args ∧
      (lc.when (some L) wf f).kwargs = lc.kwargs ∧
      ∀ L2, L2 ≠ L →
        List.lookup L2 (lc.when (some L) wf f).layout_rules =
          List.lookup L2 lc.layout_rules) ∧
    ((lc.when none wfg fg).layout_rules = lc.layout_rules ∧
      (lc.when none wfg fg).call = lc.call ∧
      (lc.when none wfg fg).args = lc.args ∧
      (lc.when none wfg fg).kwargs = lc.kwargs) := by
  refine ⟨⟨rfl, rfl, rfl, rfl, rfl, ?_⟩, rfl, rfl, rfl, rfl⟩
  intro L2 hne
  simp [LazyCall.when, dictSet_lookup_ne _ _ _ _ hne]

/-- C8: `check` raises nothing of its own and neither suppresses, retries
nor modifies what the selected predicate does: in every branch of the
algorithm that consults a predicate (the matching per-layout rule's filter,
or the global filter), the verdict of `check` IS that predicate's result —
an `Except.ok` boolean comes back as a boolean and an `Except.error` comes
back as that very error — and in the two branches that consult none (a
floating window vetoed by a false `when_floating` flag) the verdict is
`Except.ok false`, again no exception of `check`'s own. -/
theorem C8_error_propagation {κ τ δ ε : Type} (lc : LazyCall κ τ δ ε)
    (q : Qtile) :
    (∀ r, List.lookup q.current_layout.name lc.layout_rules = some r →
      (q.floating_window = false → lc.check q = r.filter q) ∧
      (q.floating_window = true → r.when_floating = true →
        lc.check q = r.filter q) ∧
      (q.floating_window = true → r.when_floating = false →
        lc.check q = Except.ok false)) ∧
    (List.lookup q.current_layout.name lc.layout_rules = none →
      (q.floating_window = false → lc.check q = lc.applyFilter q) ∧
      (q.floating_window = true → lc.when_floating = true →
        lc.check q = lc.applyFilter q) ∧
      (q.floating_window = true → lc.when_floating = false →
        lc.check q = Except.ok false)) := by
  constructor
  · intro r hr
    refine ⟨?_, ?_, ?_⟩
    · intro hw
      simp [LazyCall.check, hw, hr]
    · intro hw hwf
      simp [LazyCall.check, hw, hr, hwf]
    · intro hw hwf
      simp [LazyCall.check, hw, hr, hwf]
  · intro hr
    refine ⟨?_, ?_, ?_⟩
    · intro hw
      simp [LazyCall.check, hw, hr]
    · intro hw hwf
      simp [LazyCall.check, hw, hr, hwf]
    · intro hw hwf
      simp [LazyCall.check, hw, hr, hwf]

/-- C9: the builder contract: `execute` returns a fresh `LazyCall` whose
stored call, args and kwargs are exactly the ones passed in (with the
initial rule state), and `has_command` and `has_item` answer `true` for
every node, command name, object type and item. -/
theorem C9_builder_contract {κ τ δ ε ν ι : Type} (call : κ) (args : τ)
    (kwargs : δ) (node : ν) (command : String) (object_type : String)
    (item : ι) :
    (@LazyCommandObject.execute κ τ δ ε call args kwargs).call = call ∧
    (@LazyCommandObject.execute κ τ δ ε call args kwargs).args = args ∧
    (@LazyCommandObject.execute κ τ δ ε call args kwargs).kwargs = kwargs ∧
    (@LazyCommandObject.execute κ τ δ ε call args kwargs).layout_rules
      = [] ∧
    (@LazyCommandObject.execute κ τ δ ε call args kwargs).when_floating
      = true ∧
    (@LazyCommandObject.execute κ τ δ ε call args kwargs).filter = none ∧
    LazyCommandObject.has_command node command = true ∧
    LazyCommandObject.has_item node object_type item = true :=
  ⟨rfl, rfl, rfl, rfl, rfl, rfl, rfl, rfl⟩

/-- C10: evaluation does not mutate rule state.  `checkDD` — `check` with
the `defaultdict` state of `_layout_rules` explicit — returns the same
verdict as `check` and leaves the whole object (rule table, global flag,
global filter, stored invocation) unchanged, for every choice of the
defaultdict's default entry: membership is tested before any subscript, so
no entry is ever inserted. -/
theorem C10_check_no_mutation {κ τ δ ε : Type} (dflt : Rule ε)
    (lc : LazyCall κ τ δ ε) (q : Qtile) :
    LazyCall.checkDD dflt lc q = (lc.check q, lc) := by
  obtain ⟨c, a, kw, rules, wfl, fl⟩ := lc
  unfold LazyCall.checkDD LazyCall.check ddGetItem
  cases hw : q.floating_window with
  | false =>
    cases hr : List.lookup q.current_layout.name rules with
    | some r => simp [hr]
    | none => simp [hr]
  | true =>
    cases hr : List.lookup q.current_layout.name rules with
    | some r =>
      cases hwf : r.when_floating with
      | false => simp [hr, hwf]
      | true => simp [hr, hwf]
    | none => cases wfl <;> simp [hr]

/-- Witness for C1: a fresh call (no explicit global filter, empty rule
table) fires in layout "any" with no current window. -/
theorem C1_witness :
    (@LazyCall.init Nat Nat Nat Unit 0 0 0).check ⟨⟨"any"⟩, none⟩ =
      Except.ok true :=
  ((C1_default_global_filter (@LazyCall.init Nat Nat Nat Unit 0 0 0)
      ⟨⟨"any"⟩, none⟩ rfl rfl).1 rfl).2.mpr (by simp [LazyCall.init])

/-- Witness for C2: rule for "columns" with `when_floating = false` and an
always-raising filter; floating window in "columns" yields `ok false` — the
filter is short-circuited, no exception escapes. -/
theorem C2_witness :
    ((@LazyCall.init Nat Nat Nat Unit 0 0 0).when (some "columns") false
        (some (fun _ => Except.error ()))).check
      ⟨⟨"columns"⟩, some ⟨true⟩⟩ = Except.ok false :=
  (C2_floating_rule_short_circuit
      ((@LazyCall.init Nat Nat Nat Unit 0 0 0).when (some "columns") false
        (some (fun _ => Except.error ())))
      ⟨⟨"columns"⟩, some ⟨true⟩⟩ "columns" false
      (fun _ => Except.error ()) rfl rfl rfl).2 rfl

/-- Witness for C3: rule for "columns" with `when_floating = false`; a
non-floating state in "columns" still runs the rule's filter and fires. -/
theorem C3_witness :
    ((@LazyCall.init Nat Nat Nat Unit 0 0 0).when (some "columns") false
        (some (fun _ => Except.ok true))).check ⟨⟨"columns"⟩, none⟩ =
      Except.ok true :=
  C3_nonfloating_rule
    ((@LazyCall.init Nat Nat Nat Unit 0 0 0).when (some "columns") false
      (some (fun _ => Except.ok true)))
    ⟨⟨"columns"⟩, none⟩ "columns" false (fun _ => Except.ok true)
    rfl rfl rfl

/-- Witness for C4: after `when` with no layout and
`when_floating = false`, a floating window in an unruled layout never
fires. -/
theorem C4_witness :
    ((@LazyCall.init Nat Nat Nat Unit 0 0 0).when none false none).check
      ⟨⟨"x"⟩, some ⟨true⟩⟩ = Except.ok false :=
  (C4_floating_global (@LazyCall.init Nat Nat Nat Unit 0 0 0)
      ⟨⟨"x"⟩, some ⟨true⟩⟩ rfl rfl).2 none

/-- Witness for C7: attaching a rule for "columns" leaves the rule entry
for "monadtall" unchanged. -/
theorem C7_witness :
    List.lookup "monadtall"
        ((@LazyCall.init Nat Nat Nat Unit 0 0 0).when (some "columns")
          false none).layout_rules =
      List.lookup "monadtall"
        (@LazyCall.init Nat Nat Nat Unit 0 0 0).layout_rules :=
  (C7_when_frame (@LazyCall.init Nat Nat Nat Unit 0 0 0) "columns" false
      none true none).1.2.2.2.2.2 "monadtall" (by decide)

/-- Witness for C8: a global filter that raises `42`; with no per-layout
rule and no floating window, `check` surfaces exactly that exception. -/
theorem C8_witness :
    ((@LazyCall.init Nat Nat Nat Nat 0 0 0).when none true
        (some (fun _ => Except.error 42))).check ⟨⟨"x"⟩, none⟩ =
      Except.error 42 :=
  ((C8_error_propagation
      ((@LazyCall.init Nat Nat Nat Nat 0 0 0).when none true
        (some (fun _ => Except.error 42)))
      ⟨⟨"x"⟩, none⟩).2 rfl).1 rfl
